import Mathlib

/-!
Verification of the `debug_unwraps` crate (src/lib.rs): extension methods
`debug_unwrap_unchecked`, `debug_expect_unchecked` on `Option` and `Result`,
and `debug_unwrap_err_unchecked`, `debug_expect_err_unchecked` on `Result`.
Each method selects at compile time, via `cfg(debug_assertions)`, between a
checked extraction (`unwrap` / `expect` / `unwrap_err` / `expect_err`, which
panic on the wrong variant) and a raw unchecked one (`unwrap_unchecked` /
`unwrap_err_unchecked`, undefined behavior on the wrong variant).

The embedding makes the build configuration an explicit boolean argument
`da` (debug assertions enabled). The result of a call is an `Outcome`:
either a returned payload, a panic carrying its message string, or `ub`
marking the undefined-behavior case of the release-mode unchecked paths.
Rust `fmt::Debug` renderings are passed as explicit functions into `String`.
-/

namespace DebugUnwraps

/-- Result of running one extraction operation: a returned payload, a panic
carrying its message, or undefined behavior (the release-mode unchecked
extraction applied to the wrong variant). -/
inductive Outcome (α : Type) where
  | ret (a : α)
  | panic (msg : String)
  | ub
deriving DecidableEq, Repr

/-- True exactly when the outcome is a panic. -/
def Outcome.isPanic {α : Type} : Outcome α → Bool
  | .panic _ => true
  | _ => false

/-- Rust's `Result<T, E>` type, with its two variants. -/
inductive RResult (T E : Type) where
  | Ok (t : T)
  | Err (e : E)
deriving DecidableEq, Repr

variable {α T E : Type}

/-- Models Rust std `Option::unwrap`: returns the payload of `Some`, panics
with the standard message on `None`. -/
def optUnwrap : Option α → Outcome α
  | some a => .ret a
  | none => .panic "called `Option::unwrap()` on a `None` value"

/-- Models Rust std `Option::expect`: returns the payload of `Some`, panics
with exactly the supplied message on `None`. -/
def optExpect (msg : String) : Option α → Outcome α
  | some a => .ret a
  | none => .panic msg

/-- Models Rust std `Option::unwrap_unchecked`: returns the payload of
`Some`; on `None` the behavior is undefined. -/
def optUnwrapUnchecked : Option α → Outcome α
  | some a => .ret a
  | none => .ub

/-- Models Rust std `Result::unwrap`: returns the `Ok` payload, panics on
`Err` with the standard message followed by the Debug rendering of the
error payload. `dbgE` is the `fmt::Debug` implementation for `E`. -/
def resUnwrap (dbgE : E → String) : RResult T E → Outcome T
  | .Ok t => .ret t
  | .Err e => .panic ("called `Result::unwrap()` on an `Err` value: " ++ dbgE e)

/-- Models Rust std `Result::expect`: returns the `Ok` payload, panics on
`Err` with the supplied message followed by the Debug rendering of the
error payload. -/
def resExpect (dbgE : E → String) (msg : String) : RResult T E → Outcome T
  | .Ok t => .ret t
  | .Err e => .panic (msg ++ ": " ++ dbgE e)

/-- Models Rust std `Result::unwrap_unchecked`: returns the `Ok` payload;
on `Err` the behavior is undefined. -/
def resUnwrapUnchecked : RResult T E → Outcome T
  | .Ok t => .ret t
  | .Err _ => .ub

/-- Models Rust std `Result::unwrap_err`: returns the `Err` payload, panics
on `Ok` with the standard message followed by the Debug rendering of the
success payload. `dbgT` is the `fmt::Debug` implementation for `T`. -/
def resUnwrapErr (dbgT : T → String) : RResult T E → Outcome E
  | .Err e => .ret e
  | .Ok t => .panic ("called `Result::unwrap_err()` on an `Ok` value: " ++ dbgT t)

/-- Models Rust std `Result::expect_err`: returns the `Err` payload, panics
on `Ok` with the supplied message followed by the Debug rendering of the
success payload. -/
def resExpectErr (dbgT : T → String) (msg : String) : RResult T E → Outcome E
  | .Err e => .ret e
  | .Ok t => .panic (msg ++ ": " ++ dbgT t)

/-- Models Rust std `Result::unwrap_err_unchecked`: returns the `Err`
payload; on `Ok` the behavior is undefined. -/
def resUnwrapErrUnchecked : RResult T E → Outcome E
  | .Err e => .ret e
  | .Ok _ => .ub

namespace OptionImpl

/-- Embeds `<Option<T> as DebugUnwrapExt>::debug_unwrap_unchecked`
(src/lib.rs lines 69-80): `self.unwrap()` under `cfg(debug_assertions)`,
`self.unwrap_unchecked()` otherwise. `da` is the build configuration. -/
def debug_unwrap_unchecked (da : Bool) (o : Option α) : Outcome α :=
  if da then optUnwrap o else optUnwrapUnchecked o

/-- Embeds `<Option<T> as DebugUnwrapExt>::debug_expect_unchecked`
(src/lib.rs lines 82-94): `self.expect(msg)` under `cfg(debug_assertions)`,
`self.unwrap_unchecked()` otherwise (the message is unused). -/
def debug_expect_unchecked (da : Bool) (o : Option α) (msg : String) : Outcome α :=
  if da then optExpect msg o else optUnwrapUnchecked o

end OptionImpl

namespace ResultImpl

/-- Embeds `<Result<T, E> as DebugUnwrapExt>::debug_unwrap_unchecked`
(src/lib.rs lines 103-114): `self.unwrap()` under `cfg(debug_assertions)`,
`self.unwrap_unchecked()` otherwise. `dbgE` is the `E: fmt::Debug` bound. -/
def debug_unwrap_unchecked (da : Bool) (dbgE : E → String) (r : RResult T E) : Outcome T :=
  if da then resUnwrap dbgE r else resUnwrapUnchecked r

/-- Embeds `<Result<T, E> as DebugUnwrapExt>::debug_expect_unchecked`
(src/lib.rs lines 116-128): `self.expect(msg)` under `cfg(debug_assertions)`,
`self.unwrap_unchecked()` otherwise (the message is unused). -/
def debug_expect_unchecked (da : Bool) (dbgE : E → String) (r : RResult T E)
    (msg : String) : Outcome T :=
  if da then resExpect dbgE msg r else resUnwrapUnchecked r

end ResultImpl

namespace ResultErrImpl

/-- Embeds `<Result<T, E> as DebugUnwrapErrExt>::debug_unwrap_err_unchecked`
(src/lib.rs lines 137-148): `self.unwrap_err()` under `cfg(debug_assertions)`,
`self.unwrap_err_unchecked()` otherwise. `dbgT` is the `T: fmt::Debug` bound. -/
def debug_unwrap_err_unchecked (da : Bool) (dbgT : T → String) (r : RResult T E) : Outcome E :=
  if da then resUnwrapErr dbgT r else resUnwrapErrUnchecked r

/-- Embeds `<Result<T, E> as DebugUnwrapErrExt>::debug_expect_err_unchecked`
(src/lib.rs lines 150-162): `self.expect_err(msg)` under
`cfg(debug_assertions)`, `self.unwrap_err_unchecked()` otherwise (the
message is unused). -/
def debug_expect_err_unchecked (da : Bool) (dbgT : T → String) (r : RResult T E)
    (msg : String) : Outcome E :=
  if da then resExpectErr dbgT msg r else resUnwrapErrUnchecked r

end ResultErrImpl

/-- Helper: a string built by appending to a nonempty literal is nonempty. -/
theorem append_ne_empty (a b : String) (h : a.data ≠ []) : a ++ b ≠ "" := by
  intro hc
  apply h
  have := congrArg String.data hc
  simp only [String.data_append] at this
  exact (List.append_eq_nil.mp this).1

/-- Helper: the left operand of a string append is an infix of the result. -/
theorem left_infix_append (a b : String) : a.data <:+: (a ++ b).data :=
  ⟨[], b.data, by simp [String.data_append]⟩

/-- Helper: the right operand of a string append is an infix of the result. -/
theorem right_infix_append (a b : String) : b.data <:+: (a ++ b).data :=
  ⟨a.data, [], by simp [String.data_append]⟩

/-- Helper: the first operand of a double string append is an infix of the
result. -/
theorem first_infix_append2 (a b c : String) : a.data <:+: (a ++ b ++ c).data :=
  ⟨[], b.data ++ c.data, by simp [String.data_append]⟩

/-- Helper: every `Outcome` is a return, a panic, or undefined behavior. -/
theorem outcome_trichotomy (x : Outcome α) :
    (∃ v, x = .ret v) ∨ (∃ m, x = .panic m) ∨ x = .ub := by
  cases x with
  | ret v => exact .inl ⟨v, rfl⟩
  | panic m => exact .inr (.inl ⟨m, rfl⟩)
  | ub => exact .inr (.inr rfl)

/-- C1: for every build configuration, every extraction operation applied to
a container in the state it expects returns exactly the stored payload:
`debug_unwrap_unchecked` and `debug_expect_unchecked` on a present `Option`
and on an `Ok` `Result`, and `debug_unwrap_err_unchecked` and
`debug_expect_err_unchecked` on an `Err` `Result`. -/
theorem C1_expected_state_returns_payload (da : Bool) (a : α) (t : T) (e : E)
    (dbgE : E → String) (dbgT : T → String) (msg : String) :
    OptionImpl.debug_unwrap_unchecked da (some a) = .ret a ∧
    OptionImpl.debug_expect_unchecked da (some a) msg = .ret a ∧
    ResultImpl.debug_unwrap_unchecked da dbgE (.Ok t) = .ret t ∧
    ResultImpl.debug_expect_unchecked da dbgE (.Ok t) msg = .ret t ∧
    ResultErrImpl.debug_unwrap_err_unchecked da dbgT (.Err e) = .ret e ∧
    ResultErrImpl.debug_expect_err_unchecked da dbgT (.Err e) msg = .ret e := by
  cases da <;>
    simp [OptionImpl.debug_unwrap_unchecked, OptionImpl.debug_expect_unchecked,
      ResultImpl.debug_unwrap_unchecked, ResultImpl.debug_expect_unchecked,
      ResultErrImpl.debug_unwrap_err_unchecked, ResultErrImpl.debug_expect_err_unchecked,
      optUnwrap, optExpect, optUnwrapUnchecked, resUnwrap, resExpect, resUnwrapUnchecked,
      resUnwrapErr, resExpectErr, resUnwrapErrUnchecked]

/-- C2: with debug assertions enabled, every extraction operation applied to
a container NOT in the state it expects panics rather than returning: the
success-path operations on `none` and on `Err`, and the failure-path
operations on `Ok`. -/
theorem C2_wrong_state_panics (e : E) (t : T)
    (dbgE : E → String) (dbgT : T → String) (msg : String) :
    (OptionImpl.debug_unwrap_unchecked true (none : Option α)).isPanic = true ∧
    (OptionImpl.debug_expect_unchecked true (none : Option α) msg).isPanic = true ∧
    (ResultImpl.debug_unwrap_unchecked true dbgE (.Err e : RResult T E)).isPanic = true ∧
    (ResultImpl.debug_expect_unchecked true dbgE (.Err e : RResult T E) msg).isPanic = true ∧
    (ResultErrImpl.debug_unwrap_err_unchecked true dbgT (.Ok t : RResult T E)).isPanic = true ∧
    (ResultErrImpl.debug_expect_err_unchecked true dbgT (.Ok t : RResult T E) msg).isPanic
      = true := by
  simp [OptionImpl.debug_unwrap_unchecked, OptionImpl.debug_expect_unchecked,
    ResultImpl.debug_unwrap_unchecked, ResultImpl.debug_expect_unchecked,
    ResultErrImpl.debug_unwrap_err_unchecked, ResultErrImpl.debug_expect_err_unchecked,
    optUnwrap, optExpect, resUnwrap, resExpect, resUnwrapErr, resExpectErr, Outcome.isPanic]

/-- C3: with debug assertions disabled, each custom-message operation is
extensionally equal to the corresponding default-message operation on every
container and every message: the message argument has no effect. -/
theorem C3_release_expect_equals_unwrap (o : Option α) (r : RResult T E)
    (dbgE : E → String) (dbgT : T → String) (msg : String) :
    OptionImpl.debug_expect_unchecked false o msg
      = OptionImpl.debug_unwrap_unchecked false o ∧
    ResultImpl.debug_expect_unchecked false dbgE r msg
      = ResultImpl.debug_unwrap_unchecked false dbgE r ∧
    ResultErrImpl.debug_expect_err_unchecked false dbgT r msg
      = ResultErrImpl.debug_unwrap_err_unchecked false dbgT r := by
  simp [OptionImpl.debug_unwrap_unchecked, OptionImpl.debug_expect_unchecked,
    ResultImpl.debug_unwrap_unchecked, ResultImpl.debug_expect_unchecked,
    ResultErrImpl.debug_unwrap_err_unchecked, ResultErrImpl.debug_expect_err_unchecked]

/-- C4: with debug assertions enabled, when a custom-message operation
panics its message contains the caller-supplied string, and when a
default-message operation panics its message is a nonempty generic
description. -/
theorem C4_panic_message_contents (e : E) (t : T)
    (dbgE : E → String) (dbgT : T → String) (msg : String) :
    (∃ m, OptionImpl.debug_expect_unchecked true (none : Option α) msg = .panic m ∧
      msg.data <:+: m.data) ∧
    (∃ m, ResultImpl.debug_expect_unchecked true dbgE (.Err e : RResult T E) msg = .panic m ∧
      msg.data <:+: m.data) ∧
    (∃ m, ResultErrImpl.debug_expect_err_unchecked true dbgT (.Ok t : RResult T E) msg
      = .panic m ∧ msg.data <:+: m.data) ∧
    (∃ m, OptionImpl.debug_unwrap_unchecked true (none : Option α) = .panic m ∧ m ≠ "") ∧
    (∃ m, ResultImpl.debug_unwrap_unchecked true dbgE (.Err e : RResult T E) = .panic m ∧
      m ≠ "") ∧
    (∃ m, ResultErrImpl.debug_unwrap_err_unchecked true dbgT (.Ok t : RResult T E) = .panic m ∧
      m ≠ "") := by
  refine ⟨⟨msg, ?_, ?_⟩, ⟨msg ++ ": " ++ dbgE e, ?_, ?_⟩, ⟨msg ++ ": " ++ dbgT t, ?_, ?_⟩,
    ⟨"called `Option::unwrap()` on a `None` value", ?_, ?_⟩,
    ⟨"called `Result::unwrap()` on an `Err` value: " ++ dbgE e, ?_, ?_⟩,
    ⟨"called `Result::unwrap_err()` on an `Ok` value: " ++ dbgT t, ?_, ?_⟩⟩
  · rfl
  · exact List.infix_refl _
  · rfl
  · exact first_infix_append2 msg ": " (dbgE e)
  · rfl
  · exact first_infix_append2 msg ": " (dbgT t)
  · rfl
  · decide
  · rfl
  · exact append_ne_empty _ _ (by decide)
  · rfl
  · exact append_ne_empty _ _ (by decide)

/-- C5: with debug assertions enabled, the default-message operations on the
`Result` container include the Debug rendering of the unexpected payload in
their panic message: `debug_unwrap_unchecked` on `Err e` includes `dbgE e`,
and `debug_unwrap_err_unchecked` on `Ok t` includes `dbgT t`. -/
theorem C5_default_message_includes_payload (e : E) (t : T)
    (dbgE : E → String) (dbgT : T → String) :
    (∃ m, ResultImpl.debug_unwrap_unchecked true dbgE (.Err e : RResult T E) = .panic m ∧
      (dbgE e).data <:+: m.data) ∧
    (∃ m, ResultErrImpl.debug_unwrap_err_unchecked true dbgT (.Ok t : RResult T E) = .panic m ∧
      (dbgT t).data <:+: m.data) := by
  exact ⟨⟨_, rfl, right_infix_append _ _⟩, ⟨_, rfl, right_infix_append _ _⟩⟩

/-- C6: with debug assertions enabled, every operation on every container
(and every message) yields either a returned payload or a panic, never the
undefined-behavior outcome. -/
theorem C6_checked_build_never_ub (o : Option α) (r : RResult T E)
    (dbgE : E → String) (dbgT : T → String) (msg : String) :
    OptionImpl.debug_unwrap_unchecked true o ≠ .ub ∧
    OptionImpl.debug_expect_unchecked true o msg ≠ .ub ∧
    ResultImpl.debug_unwrap_unchecked true dbgE r ≠ .ub ∧
    ResultImpl.debug_expect_unchecked true dbgE r msg ≠ .ub ∧
    ResultErrImpl.debug_unwrap_err_unchecked true dbgT r ≠ .ub ∧
    ResultErrImpl.debug_expect_err_unchecked true dbgT r msg ≠ .ub := by
  cases o <;> cases r <;>
    simp [OptionImpl.debug_unwrap_unchecked, OptionImpl.debug_expect_unchecked,
      ResultImpl.debug_unwrap_unchecked, ResultImpl.debug_expect_unchecked,
      ResultErrImpl.debug_unwrap_err_unchecked, ResultErrImpl.debug_expect_err_unchecked,
      optUnwrap, optExpect, resUnwrap, resExpect, resUnwrapErr, resExpectErr]

/-- C7: with debug assertions enabled, the custom-message operations on the
`Result` container panic with a message containing both the caller-supplied
string and the Debug rendering of the unexpected payload. -/
theorem C7_result_expect_message_has_both (e : E) (t : T)
    (dbgE : E → String) (dbgT : T → String) (msg : String) :
    (∃ m, ResultImpl.debug_expect_unchecked true dbgE (.Err e : RResult T E) msg = .panic m ∧
      msg.data <:+: m.data ∧ (dbgE e).data <:+: m.data) ∧
    (∃ m, ResultErrImpl.debug_expect_err_unchecked true dbgT (.Ok t : RResult T E) msg
      = .panic m ∧ msg.data <:+: m.data ∧ (dbgT t).data <:+: m.data) := by
  exact ⟨⟨msg ++ ": " ++ dbgE e, rfl, first_infix_append2 msg ": " (dbgE e),
      right_infix_append _ _⟩,
    ⟨msg ++ ": " ++ dbgT t, rfl, first_infix_append2 msg ": " (dbgT t),
      right_infix_append _ _⟩⟩

/-- C8: with debug assertions enabled, `debug_expect_unchecked` on an absent
`Option` panics with exactly the caller-supplied string and nothing more. -/
theorem C8_option_expect_exact_message (msg : String) :
    OptionImpl.debug_expect_unchecked true (none : Option α) msg = .panic msg := rfl

/-- C9: every operation is deterministic and depends only on its explicit
inputs: equal containers (and equal messages, Debug renderings and build
configuration) give identical outcomes. -/
theorem C9_deterministic (da : Bool) (o₁ o₂ : Option α) (r₁ r₂ : RResult T E)
    (dbgE : E → String) (dbgT : T → String) (m₁ m₂ : String)
    (ho : o₁ = o₂) (hr : r₁ = r₂) (hm : m₁ = m₂) :
    OptionImpl.debug_unwrap_unchecked da o₁ = OptionImpl.debug_unwrap_unchecked da o₂ ∧
    OptionImpl.debug_expect_unchecked da o₁ m₁ = OptionImpl.debug_expect_unchecked da o₂ m₂ ∧
    ResultImpl.debug_unwrap_unchecked da dbgE r₁ = ResultImpl.debug_unwrap_unchecked da dbgE r₂ ∧
    ResultImpl.debug_expect_unchecked da dbgE r₁ m₁
      = ResultImpl.debug_expect_unchecked da dbgE r₂ m₂ ∧
    ResultErrImpl.debug_unwrap_err_unchecked da dbgT r₁
      = ResultErrImpl.debug_unwrap_err_unchecked da dbgT r₂ ∧
    ResultErrImpl.debug_expect_err_unchecked da dbgT r₁ m₁
      = ResultErrImpl.debug_expect_err_unchecked da dbgT r₂ m₂ := by
  subst ho; subst hr; subst hm
  exact ⟨rfl, rfl, rfl, rfl, rfl, rfl⟩

/-- C9 witness: the determinism theorem applied at a concrete input. -/
theorem C9_deterministic_witness :
    OptionImpl.debug_unwrap_unchecked true (some 42)
      = OptionImpl.debug_unwrap_unchecked true (some 42) ∧
    OptionImpl.debug_expect_unchecked true (some 42) "m"
      = OptionImpl.debug_expect_unchecked true (some 42) "m" ∧
    ResultImpl.debug_unwrap_unchecked true (fun _ : Nat => "0") (.Ok 7 : RResult Nat Nat)
      = ResultImpl.debug_unwrap_unchecked true (fun _ : Nat => "0") (.Ok 7 : RResult Nat Nat) ∧
    ResultImpl.debug_expect_unchecked true (fun _ : Nat => "0") (.Ok 7 : RResult Nat Nat) "m"
      = ResultImpl.debug_expect_unchecked true (fun _ : Nat => "0")
          (.Ok 7 : RResult Nat Nat) "m" ∧
    ResultErrImpl.debug_unwrap_err_unchecked true (fun _ : Nat => "0") (.Ok 7 : RResult Nat Nat)
      = ResultErrImpl.debug_unwrap_err_unchecked true (fun _ : Nat => "0")
          (.Ok 7 : RResult Nat Nat) ∧
    ResultErrImpl.debug_expect_err_unchecked true (fun _ : Nat => "0")
        (.Ok 7 : RResult Nat Nat) "m"
      = ResultErrImpl.debug_expect_err_unchecked true (fun _ : Nat => "0")
          (.Ok 7 : RResult Nat Nat) "m" :=
  C9_deterministic true (some 42) (some 42) (.Ok 7) (.Ok 7)
    (fun _ => "0") (fun _ => "0") "m" "m" rfl rfl rfl

/-- C10: every operation terminates on every input in both build
configurations: each yields a definite outcome, which is a returned
payload, a panic, or the undefined-behavior marker. -/
theorem C10_total_outcome (da : Bool) (o : Option α) (r : RResult T E)
    (dbgE : E → String) (dbgT : T → String) (msg : String) :
    ((∃ v, OptionImpl.debug_unwrap_unchecked da o = .ret v) ∨
      (∃ m, OptionImpl.debug_unwrap_unchecked da o = .panic m) ∨
      OptionImpl.debug_unwrap_unchecked da o = .ub) ∧
    ((∃ v, OptionImpl.debug_expect_unchecked da o msg = .ret v) ∨
      (∃ m, OptionImpl.debug_expect_unchecked da o msg = .panic m) ∨
      OptionImpl.debug_expect_unchecked da o msg = .ub) ∧
    ((∃ v, ResultImpl.debug_unwrap_unchecked da dbgE r = .ret v) ∨
      (∃ m, ResultImpl.debug_unwrap_unchecked da dbgE r = .panic m) ∨
      ResultImpl.debug_unwrap_unchecked da dbgE r = .ub) ∧
    ((∃ v, ResultImpl.debug_expect_unchecked da dbgE r msg = .ret v) ∨
      (∃ m, ResultImpl.debug_expect_unchecked da dbgE r msg = .panic m) ∨
      ResultImpl.debug_expect_unchecked da dbgE r msg = .ub) ∧
    ((∃ v, ResultErrImpl.debug_unwrap_err_unchecked da dbgT r = .ret v) ∨
      (∃ m, ResultErrImpl.debug_unwrap_err_unchecked da dbgT r = .panic m) ∨
      ResultErrImpl.debug_unwrap_err_unchecked da dbgT r = .ub) ∧
    ((∃ v, ResultErrImpl.debug_expect_err_unchecked da dbgT r msg = .ret v) ∨
      (∃ m, ResultErrImpl.debug_expect_err_unchecked da dbgT r msg = .panic m) ∨
      ResultErrImpl.debug_expect_err_unchecked da dbgT r msg = .ub) :=
  ⟨outcome_trichotomy _, outcome_trichotomy _, outcome_trichotomy _,
    outcome_trichotomy _, outcome_trichotomy _, outcome_trichotomy _⟩

end DebugUnwraps
